import Mathlib

/-!
# Container build orchestration engine: a shallow embedding

This file embeds, in Lean, the container build orchestration engine of the
`kubernetes` plugin (`container/build` handlers): the build-mode dispatcher
(`k8sGetContainerBuildStatus` / `k8sBuildContainer`), the three registry
status probes, the remote build handler (`remoteBuild`) for the
`cluster-docker` and `kaniko` build modes, the rsync context sync with its
bounded retry, the kaniko sidecar synchronization protocol, and the
manifest-inspect argument construction.

External collaborators (the docker CLI, `kubectl exec`, the pod runner, the
rsync binary, image-id helpers) are modelled as oracles: their results are
inputs to the embedded functions, and every remote interaction the engine
performs is recorded in an explicit trace of `RemoteOp` values so that
claims about *which* remote calls happen, in which order and with which
timeouts, can be stated and proved.
-/

namespace GardenBuild

/-! ## String containment (TS `String.prototype.includes`) -/

/-- Containment test: `containsSub pat l` is true when `pat` occurs as a contiguous sublist of
`l`; this models JavaScript's `String.prototype.includes` on the character
lists of the strings involved. -/
def containsSub (pat : List Char) : List Char → Bool
  | [] => pat.isEmpty
  | c :: t => pat.isPrefixOf (c :: t) || containsSub pat t

/-- String inclusion: `strIncludes s pat` models the TS expression `s.includes(pat)`. -/
def strIncludes (s pat : String) : Bool :=
  containsSub pat.toList s.toList

theorem containsSub_cons_of (pat : List Char) (c : Char) (l : List Char)
    (h : containsSub pat l = true) : containsSub pat (c :: l) = true := by
  simp only [containsSub, Bool.or_eq_true]
  exact Or.inr h

theorem containsSub_append_right (pat a b : List Char)
    (h : containsSub pat b = true) : containsSub pat (a ++ b) = true := by
  induction a with
  | nil => simpa using h
  | cons c t ih => exact containsSub_cons_of pat c (t ++ b) ih

theorem strIncludes_append_right (a b pat : String)
    (h : strIncludes b pat = true) : strIncludes (a ++ b) pat = true := by
  unfold strIncludes at *
  have : (a ++ b).toList = a.toList ++ b.toList := by
    simp [String.toList]
  rw [this]
  exact containsSub_append_right _ _ _ h

/-! ## Constants from the source module -/

def dockerDaemonDeploymentName : String := "garden-docker-daemon"

def dockerDaemonContainerName : String := "docker-daemon"

def kanikoImage : String := "gcr.io/kaniko-project/executor:debug-v0.19.0"

def skopeoImage : String := "gardendev/skopeo:1.41.0-1"

def registryPort : Nat := 5000

def buildSyncDeploymentName : String := "garden-build-sync"

/-- The constant `inClusterRegistryHostname` is imported from `../constants`; its concrete
value only feeds hostname equality checks, never the claims' conclusions. -/
def inClusterRegistryHostname : String := "127.0.0.1:5000"

/-- The constant `RSYNC_PORT`, imported from `../constants`. -/
def RSYNC_PORT : Nat := 873

/-! ## Data model -/

/-- The three container build modes of `ContainerBuildMode`. -/
inductive ContainerBuildMode where
  | localDocker
  | clusterDocker
  | kaniko
deriving DecidableEq, Repr

/-- Deployment registry reference (`ContainerRegistryConfig`): only the
hostname is inspected by the embedded code. -/
structure ContainerRegistryConfig where
  hostname : String
deriving DecidableEq, Repr

/-- The slice of `KubernetesProvider.config` read by the build engine. -/
structure KubernetesConfig where
  buildMode : ContainerBuildMode
  deploymentRegistry : Option ContainerRegistryConfig
  clusterType : Option String
  /-- Mirrors `provider.config.clusterDocker && provider.config.clusterDocker.enableBuildKit`. -/
  enableBuildKit : Bool
deriving DecidableEq, Repr

/-- The slice of a `ContainerModule` read by the build engine.
`hasDockerfile` records the answer of the external helper
`containerHelpers.hasDockerfile(module)`; `dockerfile` is
`module.spec.dockerfile`; `buildTimeout` is `module.spec.build.timeout`. -/
structure ContainerModule where
  name : String
  buildPath : String
  dockerfile : Option String
  hasDockerfile : Bool
  buildTimeout : Nat
  versionString : String
deriving DecidableEq, Repr

/-- The `BuildStatus` result shape. -/
structure BuildStatus where
  ready : Bool
deriving DecidableEq, Repr

/-- The `BuildResult` shape; all fields are optional in the TS interface (the
no-Dockerfile path of `remoteBuild` returns the empty object `{}`). -/
structure BuildResult where
  buildLog : Option String := none
  fetched : Option Bool := none
  fresh : Option Bool := none
  version : Option String := none
deriving DecidableEq, Repr

/-- Result of `containerHelpers.dockerCli` with `ignoreError: true`. -/
structure DockerCliResult where
  code : Nat
  output : String
deriving DecidableEq, Repr

/-- Result of `kubectl.exec` (via `execInBuilder`). -/
structure ExecInPodResult where
  exitCode : Nat
  stdout : String
  stderr : String
deriving DecidableEq, Repr

/-- Result of `PodRunner.startAndWait` as consumed by this module. -/
structure PodRunResult where
  success : Bool
  log : String
deriving DecidableEq, Repr

/-- The error values the embedded engine can surface, mirroring the
exception classes used in the source (`RuntimeError`, `PluginError`,
`InternalError`, `BuildError`, plus the error `kubectl.exec` raises on a
non-zero exit when `ignoreError` is not set). Each constructor carries the
diagnostic data attached at the corresponding `throw` site. -/
inductive EngineError where
  /-- A `RuntimeError` from the local-docker probe: `{ command, output }`. -/
  | runtimeError (message : String) (command : String) (output : String)
  /-- A `RuntimeError` from the cluster-docker probe: `{ command, stdout, stderr }`. -/
  | runtimeErrorExec (message : String) (command : List String) (stdout stderr : String)
  /-- A `RuntimeError` from the kaniko/skopeo probe: `{ command, output }`. -/
  | runtimeErrorPod (message : String) (command : List String) (output : String)
  /-- A `PluginError`, carrying the deployment name searched. -/
  | pluginError (message : String) (deploymentName : String)
  /-- An `InternalError`. -/
  | internalError (message : String)
  /-- A `BuildError`, embedding the collected build log. -/
  | buildError (message : String) (buildLog : String)
  /-- Error raised by `kubectl.exec` itself on a non-zero exit code when
  called without `ignoreError` (external to this module). -/
  | remoteCommandError (command : List String) (exitCode : Nat)
  /-- Error raised by `pRetry` once its retry budget is exhausted. -/
  | transportError (command : String)
deriving DecidableEq, Repr

/-- Remote interactions performed by the engine, recorded as a trace. -/
inductive RemoteOp where
  /-- A `getPortForward` call to a target resource and port. -/
  | portForward (targetResource : String) (port : Nat)
  /-- A `getRunningPodInDeployment` call. -/
  | podLookup (deploymentName : String)
  /-- One `exec("rsync", args)` attempt. -/
  | rsync (args : List String)
  /-- A `kubectl exec` into a pod container with a timeout in seconds. -/
  | execPod (podName : String) (containerName : String) (args : List String) (timeout : Nat)
  /-- An ephemeral pod run (`PodRunner.startAndWait`) with a timeout in seconds. -/
  | podRun (purpose : String) (timeout : Nat)
deriving DecidableEq, Repr

/-! ## `getManifestInspectArgs` -/

/-- The source's `isLocalHostname`. -/
def isLocalHostname (hostname : String) : Bool :=
  hostname == "localhost" || hostname.startsWith "127."

/-- Embeds `getManifestInspectArgs(module, deploymentRegistry)`. The source first
computes `remoteId = containerHelpers.getDeploymentImageId(module,
deploymentRegistry)` (an external helper); here `remoteId` is taken as an
input. -/
def getManifestInspectArgs (remoteId : String)
    (deploymentRegistry : ContainerRegistryConfig) : List String :=
  let dockerArgs := ["manifest", "inspect", remoteId]
  if isLocalHostname deploymentRegistry.hostname then
    dockerArgs ++ ["--insecure"]
  else
    dockerArgs

/-! ## Build status handlers (`buildStatusHandlers`) -/

/-- Oracle results for the external calls a status handler may make.
`dockerRes` is the result of `containerHelpers.dockerCli(module.buildPath,
args, log, { ignoreError: true })`; `microk8sStatus` the result of
`getMicrok8sImageStatus(localId)`; `localStatus` the result of
`getContainerBuildStatus(params)`; `builderPod` the result of
`getRunningPodInDeployment(dockerDaemonDeploymentName, ...)`; `execRes` the
result of the probe `execInBuilder` call; `skopeoRes` the result of the
skopeo `PodRunner.startAndWait` call. -/
structure StatusEnv where
  dockerRes : DockerCliResult
  microk8sStatus : BuildStatus
  localStatus : BuildStatus
  builderPod : Option String
  execRes : ExecInPodResult
  skopeoRes : PodRunResult

/-- The `"local-docker"` entry of `buildStatusHandlers`. The docker CLI runs
locally, so the remote-operation trace it contributes is empty. -/
def buildStatusLocalDocker (cfg : KubernetesConfig) (remoteId : String)
    (env : StatusEnv) : Except EngineError BuildStatus :=
  match cfg.deploymentRegistry with
  | some deploymentRegistry =>
    let args := getManifestInspectArgs remoteId deploymentRegistry
    let res := env.dockerRes
    -- Non-zero exit code can both mean the manifest is not found, and any
    -- other unexpected error
    if res.code != 0 && !(strIncludes res.output "no such manifest") then
      .error (.runtimeError "Unable to query registry for image status"
        ("docker " ++ String.intercalate " " args) res.output)
    else
      .ok ⟨res.code == 0⟩
  | none =>
    if cfg.clusterType == some "microk8s" then
      .ok env.microk8sStatus
    else
      .ok env.localStatus

/-- The probe command the `"cluster-docker"` status handler execs in the
builder pod. -/
def clusterDockerProbeArgs (remoteId : String)
    (deploymentRegistry : ContainerRegistryConfig) : List String :=
  let args := getManifestInspectArgs remoteId deploymentRegistry
  ["/bin/sh", "-c", "DOCKER_CLI_EXPERIMENTAL=enabled docker " ++ String.intercalate " " args]

/-- The `"cluster-docker"` entry of `buildStatusHandlers`. -/
def buildStatusClusterDocker (cfg : KubernetesConfig) (remoteId : String)
    (env : StatusEnv) : Except EngineError BuildStatus × List RemoteOp :=
  match cfg.deploymentRegistry with
  | none =>
    -- This is validated in the provider configure handler, so this is an
    -- internal error if it happens
    (.error (.internalError "Expected configured deploymentRegistry for remote build"), [])
  | some deploymentRegistry =>
    let pushArgs := clusterDockerProbeArgs remoteId deploymentRegistry
    match env.builderPod with
    | none =>
      (.error (.pluginError "Could not find running image builder" dockerDaemonDeploymentName),
        [.podLookup dockerDaemonDeploymentName])
    | some podName =>
      let res := env.execRes
      let tr := [RemoteOp.podLookup dockerDaemonDeploymentName,
        RemoteOp.execPod podName dockerDaemonContainerName pushArgs 300]
      -- Non-zero exit code can both mean the manifest is not found, and any
      -- other unexpected error
      if res.exitCode != 0 && !(strIncludes res.stderr "no such manifest") then
        (.error (.runtimeErrorExec "Unable to query registry for image status"
          pushArgs res.stdout res.stderr), tr)
      else
        (.ok ⟨res.exitCode == 0⟩, tr)

/-- The skopeo command built by the `"kaniko"` status handler. -/
def skopeoProbeCommand (remoteId : String) (inClusterRegistry : Bool) : List String :=
  let skopeoCommand := ["skopeo", "--command-timeout=30s", "inspect", "--raw"]
  let skopeoCommand :=
    if inClusterRegistry then
      -- The in-cluster registry is not exposed, so we don't configure TLS on it.
      skopeoCommand ++ ["--tls-verify=false"]
    else
      skopeoCommand
  skopeoCommand ++ ["docker://" ++ remoteId]

/-- The `"kaniko"` entry of `buildStatusHandlers`: runs skopeo in an
ephemeral pod (timeout 60) and classifies the combined log. -/
def buildStatusKaniko (cfg : KubernetesConfig) (remoteId : String)
    (env : StatusEnv) : Except EngineError BuildStatus × List RemoteOp :=
  match cfg.deploymentRegistry with
  | none =>
    -- This is validated in the provider configure handler, so this is an
    -- internal error if it happens
    (.error (.internalError "Expected configured deploymentRegistry for remote build"), [])
  | some deploymentRegistry =>
    let inClusterRegistry := deploymentRegistry.hostname == inClusterRegistryHostname
    let skopeoCommand := skopeoProbeCommand remoteId inClusterRegistry
    let res := env.skopeoRes
    -- The timeout set on the skopeo command should kick in first
    let tr := [RemoteOp.podRun "skopeo" 60]
    -- Non-zero exit code can both mean the manifest is not found, and any
    -- other unexpected error
    if !res.success && !(strIncludes res.log "manifest unknown") then
      (.error (.runtimeErrorPod "Unable to query registry for image status"
        skopeoCommand res.log), tr)
    else
      (.ok ⟨res.success⟩, tr)

/-- Embeds `k8sGetContainerBuildStatus`: return `ready: true` when the module has
no Dockerfile, otherwise dispatch on `provider.config.buildMode`. -/
def k8sGetContainerBuildStatus (module' : ContainerModule) (cfg : KubernetesConfig)
    (remoteId : String) (env : StatusEnv) : Except EngineError BuildStatus × List RemoteOp :=
  if !module'.hasDockerfile then
    -- Nothing to build
    (.ok ⟨true⟩, [])
  else
    match cfg.buildMode with
    | .localDocker => (buildStatusLocalDocker cfg remoteId env, [])
    | .clusterDocker => buildStatusClusterDocker cfg remoteId env
    | .kaniko => buildStatusKaniko cfg remoteId env

/-! ## Context sync retry (`pRetry(() => exec("rsync", syncArgs), { retries: 3, minTimeout: 500 })`) -/

/-- The `retries` option passed to `pRetry` for the rsync transfer. -/
def rsyncRetries : Nat := 3

/-- The `minTimeout` (minimum backoff in milliseconds) passed to `pRetry`
for the rsync transfer. -/
def rsyncMinTimeout : Nat := 500

/-- Retry loop: `runWithRetries fails retries i` models `p-retry`: attempt `i` fails
when `fails i` is true; on failure, retry while the budget lasts. Returns
the absolute index one past the last attempt made (so, started at `i = 0`,
the number of attempts performed) and whether the last attempt succeeded. -/
def runWithRetries (fails : Nat → Bool) : Nat → Nat → Nat × Bool
  | retries, i =>
    if fails i then
      match retries with
      | 0 => (i + 1, false)
      | r + 1 => runWithRetries fails r (i + 1)
    else
      (i + 1, true)

/-- The rsync argument vector built by `remoteBuild`. -/
def syncArgs (src destination : String) : List String :=
  ["--recursive", "--relative",
   -- Copy symlinks (Note: These are sanitized while syncing to the build staging dir)
   "--links",
   -- Preserve permissions
   "--perms",
   -- Preserve modification times
   "--times",
   "--compress", "--delete", "--temp-dir", "/tmp", src, destination]

/-! ## Build handlers (`buildHandlers`) -/

/-- Oracle results for the external calls the build handlers make.
`localBuildResult` is the result of `buildContainerModule(params)`;
`buildRoot` stands for `normalizeLocalRsyncPath(resolve(module.buildPath,
".."))` (external path helpers); `localPort` is `syncFwd.localPort`;
`buildSyncPod` the result of `getRunningPodInDeployment(buildSyncDeploymentName,
...)`; `rsyncFails i` whether the `i`-th `exec("rsync", ...)` attempt fails;
`deploymentImageId` the result of `containerHelpers.getDeploymentImageId`;
`buildFlags` the result of `getDockerBuildFlags(module)`; `builderPod` the
result of `getRunningPodInDeployment(dockerDaemonDeploymentName, ...)`;
`buildExecRes`/`pushExecRes` the two `execInBuilder` results; `kanikoRes`
the result of `runKaniko`'s `PodRunner.startAndWait`. -/
structure BuildEnv where
  localBuildResult : BuildResult
  buildRoot : String
  localPort : Nat
  buildSyncPod : Option String
  rsyncFails : Nat → Bool
  deploymentImageId : String
  buildFlags : List String
  builderPod : Option String
  buildExecRes : ExecInPodResult
  pushExecRes : ExecInPodResult
  kanikoRes : PodRunResult

/-- The build command `remoteBuild` execs in the docker daemon pod in
`cluster-docker` mode, including the optional BuildKit wrapper. -/
def clusterDockerBuildCommand (cfg : KubernetesConfig)
    (deploymentImageId dockerfilePath contextPath : String)
    (buildFlags : List String) : List String :=
  let args := ["docker", "build", "-t", deploymentImageId, "-f", dockerfilePath, contextPath]
    ++ buildFlags
  if cfg.enableBuildKit then
    ["/bin/sh", "-c", "DOCKER_BUILDKIT=1 " ++ String.intercalate " " args]
  else
    args

/-- The push command `remoteBuild` execs in the docker daemon pod. -/
def dockerPushCommand (deploymentImageId : String) : List String :=
  ["/bin/sh", "-c", String.intercalate " " ["docker", "push", deploymentImageId]]

/-- The kaniko executor arguments built by `remoteBuild` in `kaniko` mode. -/
def kanikoBuildArgs (cfg : KubernetesConfig)
    (deploymentImageId dockerfile contextPath : String)
    (buildFlags : List String) : List String :=
  let args := ["--context", "dir://" ++ contextPath, "--dockerfile", dockerfile,
    "--destination", deploymentImageId, "--cache=true"]
  let args :=
    if cfg.deploymentRegistry.map (fun r => r.hostname) == some inClusterRegistryHostname then
      -- The in-cluster registry is not exposed, so we don't configure TLS on it.
      args ++ ["--insecure"]
    else
      args
  args ++ buildFlags

/-- Embeds `localBuild`: delegates to `buildContainerModule`, then (depending on
the registry and cluster flavor) to `loadImageToKind` /
`loadImageToMicrok8s` or the `docker tag` / `docker push` CLI calls. All of
those run on the local machine (external collaborators); none is a
port-forward, pod lookup, rsync, pod exec or pod run, so the
remote-operation trace of this handler is empty in every branch. -/
def localBuild (_module : ContainerModule) (_cfg : KubernetesConfig)
    (env : BuildEnv) : Except EngineError BuildResult × List RemoteOp :=
  (.ok env.localBuildResult, [])

/-- Embeds `remoteBuild`: the shared build handler for the `cluster-docker` and
`kaniko` modes. Mirrors the source control flow: Dockerfile check, port
forward to the build sync deployment, running-sync-pod lookup, retried
rsync, then either a build+push exec pair in the docker daemon pod
(`cluster-docker`) or one kaniko ephemeral pod run (else branch). The
namespace resolution calls (`getAppNamespace`, `getSystemNamespace`) at the
top of the source function are configuration lookups, not context-sync /
exec / pod-run operations, and are not traced. -/
def remoteBuild (module' : ContainerModule) (cfg : KubernetesConfig)
    (workingCopyId : String) (env : BuildEnv) :
    Except EngineError BuildResult × List RemoteOp :=
  if !module'.hasDockerfile then
    (.ok {}, [])
  else
    -- Sync the build context to the remote sync service
    let src := env.buildRoot ++ "/./" ++ module'.name ++ "/"
    let destination := "rsync://localhost:" ++ toString env.localPort ++ "/volume/"
      ++ workingCopyId ++ "/"
    let args := syncArgs src destination
    let tr0 := [RemoteOp.portForward ("Deployment/" ++ buildSyncDeploymentName) RSYNC_PORT,
      RemoteOp.podLookup buildSyncDeploymentName]
    match env.buildSyncPod with
    | none =>
      (.error (.pluginError "Could not find running build sync Pod" buildSyncDeploymentName), tr0)
    | some _ =>
      -- We retry a couple of times, because we may get intermittent
      -- connection issues or concurrency issues
      let attempts := (runWithRetries env.rsyncFails rsyncRetries 0).1
      let rsyncOk := (runWithRetries env.rsyncFails rsyncRetries 0).2
      let tr1 := tr0 ++ List.replicate attempts (RemoteOp.rsync args)
      if !rsyncOk then
        (.error (.transportError "rsync"), tr1)
      else
        let deploymentImageId := env.deploymentImageId
        let dockerfile := module'.dockerfile.getD "Dockerfile"
        -- Because we're syncing to a shared volume, we need to scope by a unique ID
        let contextPath := "/garden-build/" ++ workingCopyId ++ "/" ++ module'.name ++ "/"
        if cfg.buildMode == ContainerBuildMode.clusterDocker then
          -- `posix.join(contextPath, dockerfile)`; `contextPath` ends in "/"
          let dockerfilePath := contextPath ++ dockerfile
          let buildArgs := clusterDockerBuildCommand cfg deploymentImageId dockerfilePath
            contextPath env.buildFlags
          match env.builderPod with
          | none =>
            (.error (.pluginError "Could not find running image builder" dockerDaemonDeploymentName),
              tr1 ++ [.podLookup dockerDaemonDeploymentName])
          | some podName =>
            let tr2 := tr1 ++ [RemoteOp.podLookup dockerDaemonDeploymentName,
              RemoteOp.execPod podName dockerDaemonContainerName buildArgs module'.buildTimeout]
            let buildRes := env.buildExecRes
            if buildRes.exitCode != 0 then
              -- `execInBuilder` is called without `ignoreError`, so
              -- `kubectl.exec` raises on a non-zero exit
              (.error (.remoteCommandError buildArgs buildRes.exitCode), tr2)
            else
              let buildLog := buildRes.stdout ++ buildRes.stderr
              -- Push the image to the registry
              let pushArgs := dockerPushCommand deploymentImageId
              let tr3 := tr2 ++ [RemoteOp.execPod podName dockerDaemonContainerName pushArgs 300]
              let pushRes := env.pushExecRes
              if pushRes.exitCode != 0 then
                (.error (.remoteCommandError pushArgs pushRes.exitCode), tr3)
              else
                (.ok { buildLog := some (buildLog ++ pushRes.stdout ++ pushRes.stderr),
                       fetched := some false, fresh := some true,
                       version := some module'.versionString }, tr3)
        else
          -- build with Kaniko
          let _kanikoArgs := kanikoBuildArgs cfg deploymentImageId dockerfile contextPath
            env.buildFlags
          let tr2 := tr1 ++ [RemoteOp.podRun "kaniko" module'.buildTimeout]
          let buildRes := env.kanikoRes
          let buildLog := buildRes.log
          if !buildRes.success then
            (.error (.buildError ("Failed building module " ++ module'.name) buildLog), tr2)
          else
            (.ok { buildLog := some buildLog, fetched := some false, fresh := some true,
                   version := some module'.versionString }, tr2)

/-- Embeds `k8sBuildContainer`: dispatch on `provider.config.buildMode` through
`buildHandlers` (`local-docker ↦ localBuild`, `cluster-docker ↦ remoteBuild`,
`kaniko ↦ remoteBuild`). -/
def k8sBuildContainer (module' : ContainerModule) (cfg : KubernetesConfig)
    (workingCopyId : String) (env : BuildEnv) :
    Except EngineError BuildResult × List RemoteOp :=
  match cfg.buildMode with
  | .localDocker => localBuild module' cfg env
  | .clusterDocker => remoteBuild module' cfg workingCopyId env
  | .kaniko => remoteBuild module' cfg workingCopyId env

/-! ## Sidecar synchronization protocol (`runKaniko` pod container scripts)

The kaniko build pod has three containers: the `kaniko` container (whose
shell script busy-polls for the `socatStarted` marker in the shared comms
volume, then runs `/kaniko/executor` and touches the `done` marker), the
`proxy` container (socat), and the `support` container (whose script
busy-polls `pidof socat`, touches `socatStarted`, then busy-polls for the
`done` marker before running `killall socat`). Each poll sleeps 0.3
seconds, i.e. 300 milliseconds. The scripts are embedded as guarded
stages, and their interleaved execution as a scheduler-driven step
function over the shared pod state. -/

/-- A shell condition polled by a sidecar script: `ls <comms>/<marker>` or
`pidof <proc>`. -/
inductive SyncCond where
  | fileExists (marker : String)
  | procRunning (proc : String)
deriving DecidableEq, Repr

/-- An action in a sidecar script body. -/
inductive SyncAction where
  /-- Runs `/kaniko/executor ${argsStr}`. -/
  | runExecutor
  /-- Runs `touch <comms>/<marker>`. -/
  | touch (marker : String)
  /-- Runs `killall <proc>`. -/
  | kill (proc : String)
  /-- Runs `exit` / `exit 0`. -/
  | exitContainer
deriving DecidableEq, Repr

/-- One `while true; do if <cond>; then <actions>; else sleep 0.3; fi done`
stage of a sidecar script. -/
structure SyncStage where
  cond : SyncCond
  actions : List SyncAction
deriving DecidableEq, Repr

/-- The `kaniko` container's `commandStr`: wait for `socatStarted`, run the
executor, touch `done`, exit. -/
def kanikoScript : List SyncStage :=
  [⟨.fileExists "socatStarted", [.runExecutor, .touch "done", .exitContainer]⟩]

/-- The `support` container's script: wait for a running socat and touch
`socatStarted` (first loop, `break`), then wait for `done` and
`killall socat; exit 0` (second loop). -/
def supportScript : List SyncStage :=
  [⟨.procRunning "socat", [.touch "socatStarted"]⟩,
   ⟨.fileExists "done", [.kill "socat", .exitContainer]⟩]

/-- Shared state of the kaniko pod: the marker files present in the comms
volume, whether socat is running, and each scripted container's remaining
stages and remaining actions of the stage it has entered. -/
structure SyncState where
  files : List String
  socatRunning : Bool
  kanikoStages : List SyncStage
  kanikoPending : List SyncAction
  supportStages : List SyncStage
  supportPending : List SyncAction
deriving DecidableEq, Repr

/-- Pod start: no marker files, socat not yet listening, both scripts at
their first stage. -/
def initialSyncState : SyncState :=
  ⟨[], false, kanikoScript, [], supportScript, []⟩

/-- Observable events of a protocol run. -/
inductive SyncEvent where
  | sleepPoll (container : String) (ms : Nat)
  | executorStart
  | touchFile (marker : String)
  | killProc (proc : String)
  | containerExit (container : String)
  | socatUp
deriving DecidableEq, Repr

/-- Evaluate a poll condition against the shared state. Only socat is ever
polled with `pidof`. -/
def evalCond (s : SyncState) : SyncCond → Bool
  | .fileExists marker => s.files.contains marker
  | .procRunning proc => proc == "socat" && s.socatRunning

/-- One scheduling quantum of a scripted container: execute the next
pending action, or test the current stage's condition (entering the stage
body when it holds, sleeping 300ms when it does not). Returns the
container's updated stages and pending actions, the updated shared state,
and the emitted events. -/
def containerStep (s : SyncState) (container : String)
    (stages : List SyncStage) (pending : List SyncAction) :
    List SyncStage × List SyncAction × SyncState × List SyncEvent :=
  match pending with
  | a :: rest =>
    match a with
    | .runExecutor => (stages, rest, s, [.executorStart])
    | .touch marker => (stages, rest, { s with files := marker :: s.files }, [.touchFile marker])
    | .kill proc => (stages, rest, { s with socatRunning := false }, [.killProc proc])
    | .exitContainer => (stages, rest, s, [.containerExit container])
  | [] =>
    match stages with
    | [] => ([], [], s, [])
    | st :: restStages =>
      if evalCond s st.cond then
        (restStages, st.actions, s, [])
      else
        (st :: restStages, [], s, [.sleepPoll container 300])

/-- Scheduler choices: advance one of the scripted containers, or let the
independently-scheduled proxy container bring socat up. -/
inductive SyncChoice where
  | kanikoStep
  | supportStep
  | socatStarts
deriving DecidableEq, Repr

/-- One interleaving step of the pod. -/
def syncStep (s : SyncState) : SyncChoice → SyncState × List SyncEvent
  | .kanikoStep =>
    let r := containerStep s "kaniko" s.kanikoStages s.kanikoPending
    ({ r.2.2.1 with kanikoStages := r.1, kanikoPending := r.2.1 }, r.2.2.2)
  | .supportStep =>
    let r := containerStep s "support" s.supportStages s.supportPending
    ({ r.2.2.1 with supportStages := r.1, supportPending := r.2.1 }, r.2.2.2)
  | .socatStarts =>
    if s.socatRunning then (s, [])
    else ({ s with socatRunning := true }, [.socatUp])

/-- The state reached from the initial pod state under a schedule. -/
def syncExec (choices : List SyncChoice) : SyncState :=
  choices.foldl (fun s c => (syncStep s c).1) initialSyncState

/-! ## Ephemeral pod runner (`PodRunner.startAndWait`) -/

/-- Orchestration API calls made by the pod runner. -/
inductive PodApiCall where
  | createPod (name : String)
  | waitForPod (name : String)
  | getPodLogs (name : String)
  | deletePod (name : String)
deriving DecidableEq, Repr

/-- The terminal outcome of waiting on an ephemeral pod. -/
inductive PodOutcome where
  | succeeded (log : String)
  | failed (log : String)
  | timedOut (logSoFar : String)
deriving DecidableEq, Repr

/-- Modelled from the spec: the `PodRunner` class is imported from `../run`,
which is not among the provided sources; only its call sites are. Per the
spec's Ephemeral Pod Runner contract, `startAndWait` (a) creates the pod,
(b) waits for a terminal state or the timeout, (c) collects the combined
log, and (d) unconditionally deletes the pod before returning, even on
timeout or error; `success` is true only for a zero exit of the primary
container, and a timeout is failure with the log collected so far. -/
def startAndWait (podName : String) (outcome : PodOutcome) :
    PodRunResult × List PodApiCall :=
  match outcome with
  | .succeeded log =>
    (⟨true, log⟩,
      [.createPod podName, .waitForPod podName, .getPodLogs podName, .deletePod podName])
  | .failed log =>
    (⟨false, log⟩,
      [.createPod podName, .waitForPod podName, .getPodLogs podName, .deletePod podName])
  | .timedOut logSoFar =>
    (⟨false, logSoFar⟩,
      [.createPod podName, .waitForPod podName, .getPodLogs podName, .deletePod podName])

/-! ## Trace predicates and concrete fixtures -/

/-- Whether a remote operation is an rsync transfer attempt. -/
def isRsyncOp : RemoteOp → Bool
  | .rsync _ => true
  | _ => false

/-- Whether a remote operation is a pod exec. -/
def isExecOp : RemoteOp → Bool
  | .execPod _ _ _ _ => true
  | _ => false

/-- A concrete module with a Dockerfile, used to instantiate theorems. -/
def sampleModule : ContainerModule :=
  ⟨"mymodule", "/project/.garden/build/mymodule", none, true, 1200, "v-0123456789"⟩

/-- A concrete module without a Dockerfile. -/
def sampleModuleNoDockerfile : ContainerModule :=
  ⟨"mymodule", "/project/.garden/build/mymodule", none, false, 1200, "v-0123456789"⟩

/-- A concrete external deployment registry. -/
def sampleRegistry : ContainerRegistryConfig := ⟨"registry.example.com"⟩

/-- Concrete status-handler oracle results. -/
def sampleStatusEnv : StatusEnv :=
  { dockerRes := ⟨0, ""⟩, microk8sStatus := ⟨false⟩, localStatus := ⟨false⟩,
    builderPod := some "garden-docker-daemon-abc12", execRes := ⟨0, "", ""⟩,
    skopeoRes := ⟨true, ""⟩ }

/-- Concrete build-handler oracle results: everything present and healthy. -/
def sampleBuildEnv : BuildEnv :=
  { localBuildResult := {}, buildRoot := "/project/.garden/build", localPort := 30873,
    buildSyncPod := some "garden-build-sync-abc12", rsyncFails := fun _ => false,
    deploymentImageId := "registry.example.com/proj/mymodule:v-0123456789",
    buildFlags := [], builderPod := some "garden-docker-daemon-abc12",
    buildExecRes := ⟨0, "bout", "berr"⟩, pushExecRes := ⟨0, "pout", "perr"⟩,
    kanikoRes := ⟨true, "built"⟩ }

/-! ## Claim theorems -/

/-- C10: in local-docker mode with a deployment registry configured, the
manifest-inspect probe command carries `--insecure` exactly when the
registry hostname is `localhost` or starts with `127.`; otherwise it is
exactly `["manifest", "inspect", remoteId]`. -/
theorem manifestInspectInsecureFlag (remoteId : String) (reg : ContainerRegistryConfig) :
    getManifestInspectArgs remoteId reg =
      if reg.hostname == "localhost" || reg.hostname.startsWith "127." then
        ["manifest", "inspect", remoteId, "--insecure"]
      else
        ["manifest", "inspect", remoteId] := by
  simp only [getManifestInspectArgs, isLocalHostname]
  split <;> rfl

/-- C2: for a module without a Dockerfile, `getBuildStatus` answers
`{ ready: true }` with an empty remote-operation trace and a result
independent of every mode handler oracle, and `build` (in every mode)
performs no remote operation: its trace has no context sync, pod exec or
pod run — it is empty. -/
theorem noDockerfileShortCircuit (module' : ContainerModule) (cfg : KubernetesConfig)
    (remoteId workingCopyId : String) (senv : StatusEnv) (benv : BuildEnv)
    (h : module'.hasDockerfile = false) :
    k8sGetContainerBuildStatus module' cfg remoteId senv = (.ok ⟨true⟩, []) ∧
    (k8sBuildContainer module' cfg workingCopyId benv).2 = [] := by
  constructor
  · simp [k8sGetContainerBuildStatus, h]
  · cases hm : cfg.buildMode <;>
      simp [k8sBuildContainer, hm, localBuild, remoteBuild, h]

/-- Witness for C2 at a concrete module, configuration and oracles. -/
theorem noDockerfileShortCircuit_witness :
    sampleModuleNoDockerfile.hasDockerfile = false ∧
    (k8sGetContainerBuildStatus sampleModuleNoDockerfile
        ⟨.kaniko, some sampleRegistry, none, false⟩ "r" sampleStatusEnv = (.ok ⟨true⟩, []) ∧
      (k8sBuildContainer sampleModuleNoDockerfile
        ⟨.kaniko, some sampleRegistry, none, false⟩ "w" sampleBuildEnv).2 = []) :=
  ⟨by decide,
    noDockerfileShortCircuit sampleModuleNoDockerfile
      ⟨.kaniko, some sampleRegistry, none, false⟩ "r" "w" sampleStatusEnv sampleBuildEnv
      (by decide)⟩

/-- C9: `PodRunner.startAndWait` (modelled from the spec; the class itself
is outside the provided sources) makes exactly one pod create and exactly
one pod delete, with the create first and the delete last, for every
outcome — success, failure or timeout. -/
theorem podRunnerAlwaysDeletes (podName : String) (outcome : PodOutcome) :
    (startAndWait podName outcome).2.count (.createPod podName) = 1 ∧
    (startAndWait podName outcome).2.count (.deletePod podName) = 1 ∧
    (startAndWait podName outcome).2.head? = some (.createPod podName) ∧
    (startAndWait podName outcome).2.getLast? = some (.deletePod podName) := by
  cases outcome <;> simp [startAndWait, List.count_cons, List.count_nil]

/-- C1: for each registry probe, (i) `ready: false` is reported only for a
non-zero tool outcome whose captured output contains the mode's absent
marker (`"no such manifest"` for the docker-based probes, `"manifest
unknown"` for skopeo); (ii) any non-zero outcome whose captured output does
not contain the marker raises a `RuntimeError` carrying the attempted
command and the raw output; (iii) a zero outcome always yields
`ready: true`. For the cluster-docker probe the captured output is
`stdout ++ stderr` of the exec. -/
theorem registryProbeClassification
    (cfg : KubernetesConfig) (reg : ContainerRegistryConfig) (remoteId : String)
    (env : StatusEnv) (hreg : cfg.deploymentRegistry = some reg) :
    ((buildStatusLocalDocker cfg remoteId env = .ok ⟨false⟩ →
        env.dockerRes.code ≠ 0 ∧ strIncludes env.dockerRes.output "no such manifest" = true) ∧
      (env.dockerRes.code ≠ 0 → strIncludes env.dockerRes.output "no such manifest" = false →
        buildStatusLocalDocker cfg remoteId env =
          .error (.runtimeError "Unable to query registry for image status"
            ("docker " ++ String.intercalate " " (getManifestInspectArgs remoteId reg))
            env.dockerRes.output)) ∧
      (env.dockerRes.code = 0 → buildStatusLocalDocker cfg remoteId env = .ok ⟨true⟩)) ∧
    (∀ podName, env.builderPod = some podName →
      ((buildStatusClusterDocker cfg remoteId env).1 = .ok ⟨false⟩ →
        env.execRes.exitCode ≠ 0 ∧
          strIncludes (env.execRes.stdout ++ env.execRes.stderr) "no such manifest" = true) ∧
      (env.execRes.exitCode ≠ 0 →
        strIncludes (env.execRes.stdout ++ env.execRes.stderr) "no such manifest" = false →
        (buildStatusClusterDocker cfg remoteId env).1 =
          .error (.runtimeErrorExec "Unable to query registry for image status"
            (clusterDockerProbeArgs remoteId reg) env.execRes.stdout env.execRes.stderr)) ∧
      (env.execRes.exitCode = 0 → (buildStatusClusterDocker cfg remoteId env).1 = .ok ⟨true⟩)) ∧
    (((buildStatusKaniko cfg remoteId env).1 = .ok ⟨false⟩ →
        env.skopeoRes.success = false ∧
          strIncludes env.skopeoRes.log "manifest unknown" = true) ∧
      (env.skopeoRes.success = false → strIncludes env.skopeoRes.log "manifest unknown" = false →
        (buildStatusKaniko cfg remoteId env).1 =
          .error (.runtimeErrorPod "Unable to query registry for image status"
            (skopeoProbeCommand remoteId (reg.hostname == inClusterRegistryHostname))
            env.skopeoRes.log)) ∧
      (env.skopeoRes.success = true → (buildStatusKaniko cfg remoteId env).1 = .ok ⟨true⟩)) := by
  refine ⟨⟨?_, ?_, ?_⟩, ?_, ⟨?_, ?_, ?_⟩⟩
  · intro hok
    simp only [buildStatusLocalDocker, hreg] at hok
    by_cases hc : env.dockerRes.code = 0
    · simp [hc] at hok
    · by_cases hm : strIncludes env.dockerRes.output "no such manifest" = true
      · exact ⟨hc, hm⟩
      · simp only [Bool.not_eq_true] at hm
        simp [hc, hm] at hok
  · intro hc hm
    simp [buildStatusLocalDocker, hreg, hc, hm]
  · intro hc
    simp [buildStatusLocalDocker, hreg, hc]
  · intro podName hpod
    refine ⟨?_, ?_, ?_⟩
    · intro hok
      simp only [buildStatusClusterDocker, hreg, hpod] at hok
      by_cases hc : env.execRes.exitCode = 0
      · simp [hc] at hok
      · by_cases hm : strIncludes env.execRes.stderr "no such manifest" = true
        · exact ⟨hc, strIncludes_append_right _ _ _ hm⟩
        · simp only [Bool.not_eq_true] at hm
          simp [hc, hm] at hok
    · intro hc hm
      have hm' : strIncludes env.execRes.stderr "no such manifest" = false := by
        by_contra hx
        simp only [Bool.not_eq_false] at hx
        rw [strIncludes_append_right _ _ _ hx] at hm
        exact Bool.true_eq_false.mp hm
      simp [buildStatusClusterDocker, hreg, hpod, hc, hm', clusterDockerProbeArgs]
    · intro hc
      simp [buildStatusClusterDocker, hreg, hpod, hc]
  · intro hok
    simp only [buildStatusKaniko, hreg] at hok
    by_cases hc : env.skopeoRes.success = true
    · simp [hc] at hok
    · simp only [Bool.not_eq_true] at hc
      by_cases hm : strIncludes env.skopeoRes.log "manifest unknown" = true
      · exact ⟨hc, hm⟩
      · simp only [Bool.not_eq_true] at hm
        simp [hc, hm] at hok
  · intro hc hm
    simp [buildStatusKaniko, hreg, hc, hm, skopeoProbeCommand]
  · intro hc
    simp [buildStatusKaniko, hreg, hc]

/-- Witness for C1: concrete non-zero outcomes without the marker raise the
error; a concrete absent-marker outcome reports not ready. -/
theorem registryProbeClassification_witness :
    (⟨.localDocker, some sampleRegistry, none, false⟩ : KubernetesConfig).deploymentRegistry
        = some sampleRegistry ∧
    buildStatusLocalDocker ⟨.localDocker, some sampleRegistry, none, false⟩ "img:v1"
        { sampleStatusEnv with dockerRes := ⟨1, "connection refused"⟩ } =
      .error (.runtimeError "Unable to query registry for image status"
        ("docker " ++ String.intercalate " " (getManifestInspectArgs "img:v1" sampleRegistry))
        "connection refused") ∧
    (({ sampleStatusEnv with skopeoRes := ⟨false, "...manifest unknown..."⟩ } : StatusEnv).skopeoRes.success = false ∧
      strIncludes ({ sampleStatusEnv with
        skopeoRes := ⟨false, "...manifest unknown..."⟩ } : StatusEnv).skopeoRes.log
        "manifest unknown" = true) := by
  refine ⟨rfl, ?_, ?_⟩
  · exact (registryProbeClassification ⟨.localDocker, some sampleRegistry, none, false⟩
      sampleRegistry "img:v1"
      { sampleStatusEnv with dockerRes := ⟨1, "connection refused"⟩ } rfl).1.2.1
      (by decide) (by decide)
  · exact (registryProbeClassification ⟨.localDocker, some sampleRegistry, none, false⟩
      sampleRegistry "img:v1"
      { sampleStatusEnv with skopeoRes := ⟨false, "...manifest unknown..."⟩ } rfl).2.2.1
      (by rfl)

/-- Full reduction of `remoteBuild` in kaniko mode when the sync pod is
found and the first rsync attempt succeeds. -/
theorem remoteBuild_kaniko_reduction (module' : ContainerModule) (cfg : KubernetesConfig)
    (workingCopyId syncPod : String) (env : BuildEnv)
    (hdf : module'.hasDockerfile = true)
    (hmode : cfg.buildMode = .kaniko)
    (hpod : env.buildSyncPod = some syncPod)
    (hrsync : env.rsyncFails 0 = false) :
    remoteBuild module' cfg workingCopyId env =
      ((if !env.kanikoRes.success then
          .error (.buildError ("Failed building module " ++ module'.name) env.kanikoRes.log)
        else
          .ok { buildLog := some env.kanikoRes.log, fetched := some false, fresh := some true,
                version := some module'.versionString }),
       [RemoteOp.portForward ("Deployment/" ++ buildSyncDeploymentName) RSYNC_PORT,
        RemoteOp.podLookup buildSyncDeploymentName,
        RemoteOp.rsync (syncArgs (env.buildRoot ++ "/./" ++ module'.name ++ "/")
          ("rsync://localhost:" ++ toString env.localPort ++ "/volume/" ++ workingCopyId ++ "/")),
        RemoteOp.podRun "kaniko" module'.buildTimeout]) := by
  simp only [remoteBuild, hdf, hpod, hmode, runWithRetries, hrsync, Bool.not_true,
    Bool.false_eq_true, if_false, if_true, List.replicate,
    show (ContainerBuildMode.kaniko == ContainerBuildMode.clusterDocker) = false from rfl]
  split <;> simp

/-- Full reduction of `remoteBuild` in cluster-docker mode when the sync
pod and the builder pod are found, the first rsync attempt succeeds, and
both execs exit 0. -/
theorem remoteBuild_clusterDocker_reduction (module' : ContainerModule)
    (cfg : KubernetesConfig) (workingCopyId syncPod podName : String) (env : BuildEnv)
    (hdf : module'.hasDockerfile = true)
    (hmode : cfg.buildMode = .clusterDocker)
    (hpod : env.buildSyncPod = some syncPod)
    (hrsync : env.rsyncFails 0 = false)
    (hbuilder : env.builderPod = some podName)
    (hb : env.buildExecRes.exitCode = 0)
    (hp : env.pushExecRes.exitCode = 0) :
    remoteBuild module' cfg workingCopyId env =
      (.ok { buildLog := some ((env.buildExecRes.stdout ++ env.buildExecRes.stderr) ++
               (env.pushExecRes.stdout ++ env.pushExecRes.stderr)),
             fetched := some false, fresh := some true,
             version := some module'.versionString },
       [RemoteOp.portForward ("Deployment/" ++ buildSyncDeploymentName) RSYNC_PORT,
        RemoteOp.podLookup buildSyncDeploymentName,
        RemoteOp.rsync (syncArgs (env.buildRoot ++ "/./" ++ module'.name ++ "/")
          ("rsync://localhost:" ++ toString env.localPort ++ "/volume/" ++ workingCopyId ++ "/")),
        RemoteOp.podLookup dockerDaemonDeploymentName,
        RemoteOp.execPod podName dockerDaemonContainerName
          (clusterDockerBuildCommand cfg env.deploymentImageId
            ("/garden-build/" ++ workingCopyId ++ "/" ++ module'.name ++ "/"
              ++ module'.dockerfile.getD "Dockerfile")
            ("/garden-build/" ++ workingCopyId ++ "/" ++ module'.name ++ "/")
            env.buildFlags)
          module'.buildTimeout,
        RemoteOp.execPod podName dockerDaemonContainerName
          (dockerPushCommand env.deploymentImageId) 300]) := by
  simp only [remoteBuild, hdf, hpod, hmode, runWithRetries, hrsync, hbuilder, hb, hp,
    Bool.not_true, Bool.false_eq_true, if_false, if_true, List.replicate]
  simp [String.append_assoc]

/-- C4: in kaniko mode, for a module with a Dockerfile (sync pod found,
transfer succeeding), a failed pod run raises a `BuildError` embedding the
collected log, and a successful pod run with log `L` returns
`{ buildLog: L, fetched: false, fresh: true, version: module.version }`. -/
theorem kanikoBuildOutcome (module' : ContainerModule) (cfg : KubernetesConfig)
    (workingCopyId syncPod : String) (env : BuildEnv)
    (hdf : module'.hasDockerfile = true)
    (hmode : cfg.buildMode = .kaniko)
    (hpod : env.buildSyncPod = some syncPod)
    (hrsync : env.rsyncFails 0 = false) :
    (env.kanikoRes.success = false →
      (remoteBuild module' cfg workingCopyId env).1 =
        .error (.buildError ("Failed building module " ++ module'.name) env.kanikoRes.log)) ∧
    (env.kanikoRes.success = true →
      (remoteBuild module' cfg workingCopyId env).1 =
        .ok { buildLog := some env.kanikoRes.log, fetched := some false, fresh := some true,
              version := some module'.versionString }) := by
  rw [remoteBuild_kaniko_reduction module' cfg workingCopyId syncPod env hdf hmode hpod hrsync]
  constructor
  · intro h
    simp [h]
  · intro h
    simp [h]

/-- Witness for C4: the spec's synthetic run — a successful pod run with
log `"built"` — yields the expected `BuildResult`. -/
theorem kanikoBuildOutcome_witness :
    sampleBuildEnv.kanikoRes.success = true ∧
    (remoteBuild sampleModule ⟨.kaniko, some sampleRegistry, none, false⟩ "w" sampleBuildEnv).1 =
      .ok { buildLog := some "built", fetched := some false, fresh := some true,
            version := some "v-0123456789" } :=
  ⟨rfl,
    (kanikoBuildOutcome sampleModule ⟨.kaniko, some sampleRegistry, none, false⟩ "w"
      "garden-build-sync-abc12" sampleBuildEnv rfl rfl rfl rfl).2 rfl⟩

/-- C5: in cluster-docker mode (sync and builder pods found, transfer
succeeding, both execs exiting 0), `build` performs exactly one
build-command exec followed by exactly one push-command exec against the
discovered daemon pod, in that order, and the returned `buildLog` is the
build exec's stdout+stderr followed by the push exec's stdout+stderr. -/
theorem clusterDockerBuildSequence (module' : ContainerModule) (cfg : KubernetesConfig)
    (workingCopyId syncPod podName : String) (env : BuildEnv)
    (hdf : module'.hasDockerfile = true)
    (hmode : cfg.buildMode = .clusterDocker)
    (hpod : env.buildSyncPod = some syncPod)
    (hrsync : env.rsyncFails 0 = false)
    (hbuilder : env.builderPod = some podName)
    (hb : env.buildExecRes.exitCode = 0)
    (hp : env.pushExecRes.exitCode = 0) :
    (remoteBuild module' cfg workingCopyId env).1 =
      .ok { buildLog := some ((env.buildExecRes.stdout ++ env.buildExecRes.stderr) ++
              (env.pushExecRes.stdout ++ env.pushExecRes.stderr)),
            fetched := some false, fresh := some true,
            version := some module'.versionString } ∧
    (remoteBuild module' cfg workingCopyId env).2.filter isExecOp =
      [RemoteOp.execPod podName dockerDaemonContainerName
        (clusterDockerBuildCommand cfg env.deploymentImageId
          ("/garden-build/" ++ workingCopyId ++ "/" ++ module'.name ++ "/"
            ++ module'.dockerfile.getD "Dockerfile")
          ("/garden-build/" ++ workingCopyId ++ "/" ++ module'.name ++ "/")
          env.buildFlags)
        module'.buildTimeout,
       RemoteOp.execPod podName dockerDaemonContainerName
        (dockerPushCommand env.deploymentImageId) 300] := by
  rw [remoteBuild_clusterDocker_reduction module' cfg workingCopyId syncPod podName env
    hdf hmode hpod hrsync hbuilder hb hp]
  constructor
  · rfl
  · simp [isExecOp]

/-- Witness for C5 at concrete oracles with exit code 0 on both execs. -/
theorem clusterDockerBuildSequence_witness :
    sampleBuildEnv.buildExecRes.exitCode = 0 ∧ sampleBuildEnv.pushExecRes.exitCode = 0 ∧
    (remoteBuild sampleModule ⟨.clusterDocker, some sampleRegistry, none, false⟩ "w"
        sampleBuildEnv).1 =
      .ok { buildLog := some (("bout" ++ "berr") ++ ("pout" ++ "perr")),
            fetched := some false, fresh := some true, version := some "v-0123456789" } :=
  ⟨rfl, rfl,
    (clusterDockerBuildSequence sampleModule ⟨.clusterDocker, some sampleRegistry, none, false⟩
      "w" "garden-build-sync-abc12" "garden-docker-daemon-abc12" sampleBuildEnv
      rfl rfl rfl rfl rfl rfl rfl).1⟩

/-- The rsync argument vector `remoteBuild` passes to every transfer
attempt for a given module, working copy and tunnel. -/
def remoteSyncArgs (module' : ContainerModule) (workingCopyId : String) (env : BuildEnv) :
    List String :=
  syncArgs (env.buildRoot ++ "/./" ++ module'.name ++ "/")
    ("rsync://localhost:" ++ toString env.localPort ++ "/volume/" ++ workingCopyId ++ "/")

/-- C6: the context sync retries the rsync transfer up to `rsyncRetries = 3`
times (minimum backoff `rsyncMinTimeout = 500` ms) on transfer failure —
a persistently failing transfer is attempted `1 + 3` times and then surfaces
as fatal; an attempt that fails once and then succeeds is not fatal and
stops retrying; and a missing running build-sync pod raises a `PluginError`
naming the deployment searched, immediately, with no transfer attempt. -/
theorem contextSyncRetryPolicy (module' : ContainerModule) (cfg : KubernetesConfig)
    (workingCopyId : String) (env : BuildEnv)
    (hdf : module'.hasDockerfile = true) :
    (env.buildSyncPod = none →
      remoteBuild module' cfg workingCopyId env =
        (.error (.pluginError "Could not find running build sync Pod" buildSyncDeploymentName),
         [RemoteOp.portForward ("Deployment/" ++ buildSyncDeploymentName) RSYNC_PORT,
          RemoteOp.podLookup buildSyncDeploymentName])) ∧
    ((∀ i, env.rsyncFails i = true) → ∀ syncPod, env.buildSyncPod = some syncPod →
      remoteBuild module' cfg workingCopyId env =
        (.error (.transportError "rsync"),
         [RemoteOp.portForward ("Deployment/" ++ buildSyncDeploymentName) RSYNC_PORT,
          RemoteOp.podLookup buildSyncDeploymentName,
          RemoteOp.rsync (remoteSyncArgs module' workingCopyId env),
          RemoteOp.rsync (remoteSyncArgs module' workingCopyId env),
          RemoteOp.rsync (remoteSyncArgs module' workingCopyId env),
          RemoteOp.rsync (remoteSyncArgs module' workingCopyId env)])) ∧
    (env.rsyncFails 0 = true → env.rsyncFails 1 = false → cfg.buildMode = .kaniko →
      ∀ syncPod, env.buildSyncPod = some syncPod →
      (remoteBuild module' cfg workingCopyId env).2 =
        [RemoteOp.portForward ("Deployment/" ++ buildSyncDeploymentName) RSYNC_PORT,
         RemoteOp.podLookup buildSyncDeploymentName,
         RemoteOp.rsync (remoteSyncArgs module' workingCopyId env),
         RemoteOp.rsync (remoteSyncArgs module' workingCopyId env),
         RemoteOp.podRun "kaniko" module'.buildTimeout]) ∧
    rsyncRetries = 3 ∧ rsyncMinTimeout = 500 := by
  refine ⟨?_, ?_, ?_, rfl, rfl⟩
  · intro hnone
    simp [remoteBuild, hdf, hnone]
  · intro hfail syncPod hpod
    simp [remoteBuild, hdf, hpod, runWithRetries, hfail, List.replicate, remoteSyncArgs]
  · intro h0 h1 hmode syncPod hpod
    simp only [remoteBuild, hdf, hpod, hmode, runWithRetries, h0, h1, Bool.not_true,
      Bool.false_eq_true, if_false, if_true, List.replicate, remoteSyncArgs,
      show (ContainerBuildMode.kaniko == ContainerBuildMode.clusterDocker) = false from rfl]
    split <;> simp [syncArgs]

/-- Witness for C6: a missing sync pod fails fast with no transfer; a
persistently failing transfer is attempted four times and surfaces as the
transport error. -/
theorem contextSyncRetryPolicy_witness :
    ({ sampleBuildEnv with buildSyncPod := none } : BuildEnv).buildSyncPod = none ∧
    remoteBuild sampleModule ⟨.kaniko, some sampleRegistry, none, false⟩ "w"
        { sampleBuildEnv with buildSyncPod := none } =
      (.error (.pluginError "Could not find running build sync Pod" buildSyncDeploymentName),
       [RemoteOp.portForward ("Deployment/" ++ buildSyncDeploymentName) RSYNC_PORT,
        RemoteOp.podLookup buildSyncDeploymentName]) ∧
    remoteBuild sampleModule ⟨.kaniko, some sampleRegistry, none, false⟩ "w"
        { sampleBuildEnv with rsyncFails := fun _ => true } =
      (.error (.transportError "rsync"),
       [RemoteOp.portForward ("Deployment/" ++ buildSyncDeploymentName) RSYNC_PORT,
        RemoteOp.podLookup buildSyncDeploymentName,
        RemoteOp.rsync (remoteSyncArgs sampleModule "w"
          { sampleBuildEnv with rsyncFails := fun _ => true }),
        RemoteOp.rsync (remoteSyncArgs sampleModule "w"
          { sampleBuildEnv with rsyncFails := fun _ => true }),
        RemoteOp.rsync (remoteSyncArgs sampleModule "w"
          { sampleBuildEnv with rsyncFails := fun _ => true }),
        RemoteOp.rsync (remoteSyncArgs sampleModule "w"
          { sampleBuildEnv with rsyncFails := fun _ => true })]) :=
  ⟨rfl,
    (contextSyncRetryPolicy sampleModule ⟨.kaniko, some sampleRegistry, none, false⟩ "w"
      { sampleBuildEnv with buildSyncPod := none } rfl).1 rfl,
    ((contextSyncRetryPolicy sampleModule ⟨.kaniko, some sampleRegistry, none, false⟩ "w"
      { sampleBuildEnv with rsyncFails := fun _ => true } rfl).2.1 (fun _ => rfl)
      "garden-build-sync-abc12" rfl)⟩

/-- C7: the outermost remote build operation is bounded by the module's
declared build timeout (the build exec in cluster-docker mode, the kaniko
pod run in kaniko mode), while the registry probes and the push step use
fixed short timeouts (300 seconds for the cluster-docker probe and the
push exec, 60 seconds for the skopeo probe pod) that are the same for
every module, whatever its configured build timeout. -/
theorem remoteTimeoutPolicy :
    (∀ (module' : ContainerModule) (cfg : KubernetesConfig)
        (workingCopyId syncPod podName : String) (env : BuildEnv),
      module'.hasDockerfile = true → cfg.buildMode = .clusterDocker →
      env.buildSyncPod = some syncPod → env.rsyncFails 0 = false →
      env.builderPod = some podName →
      env.buildExecRes.exitCode = 0 → env.pushExecRes.exitCode = 0 →
      ∃ buildArgs, (remoteBuild module' cfg workingCopyId env).2.filter isExecOp =
        [RemoteOp.execPod podName dockerDaemonContainerName buildArgs module'.buildTimeout,
         RemoteOp.execPod podName dockerDaemonContainerName
           (dockerPushCommand env.deploymentImageId) 300]) ∧
    (∀ (module' : ContainerModule) (cfg : KubernetesConfig)
        (workingCopyId syncPod : String) (env : BuildEnv),
      module'.hasDockerfile = true → cfg.buildMode = .kaniko →
      env.buildSyncPod = some syncPod → env.rsyncFails 0 = false →
      RemoteOp.podRun "kaniko" module'.buildTimeout ∈
        (remoteBuild module' cfg workingCopyId env).2) ∧
    (∀ (cfg : KubernetesConfig) (reg : ContainerRegistryConfig) (remoteId : String)
        (env : StatusEnv) (podName : String),
      cfg.deploymentRegistry = some reg → env.builderPod = some podName →
      (buildStatusClusterDocker cfg remoteId env).2 =
        [RemoteOp.podLookup dockerDaemonDeploymentName,
         RemoteOp.execPod podName dockerDaemonContainerName
           (clusterDockerProbeArgs remoteId reg) 300]) ∧
    (∀ (cfg : KubernetesConfig) (reg : ContainerRegistryConfig) (remoteId : String)
        (env : StatusEnv),
      cfg.deploymentRegistry = some reg →
      (buildStatusKaniko cfg remoteId env).2 = [RemoteOp.podRun "skopeo" 60]) := by
  refine ⟨?_, ?_, ?_, ?_⟩
  · intro module' cfg workingCopyId syncPod podName env hdf hmode hpod hrsync hbuilder hb hp
    refine ⟨clusterDockerBuildCommand cfg env.deploymentImageId
      ("/garden-build/" ++ workingCopyId ++ "/" ++ module'.name ++ "/"
        ++ module'.dockerfile.getD "Dockerfile")
      ("/garden-build/" ++ workingCopyId ++ "/" ++ module'.name ++ "/")
      env.buildFlags, ?_⟩
    rw [remoteBuild_clusterDocker_reduction module' cfg workingCopyId syncPod podName env
      hdf hmode hpod hrsync hbuilder hb hp]
    simp [isExecOp]
  · intro module' cfg workingCopyId syncPod env hdf hmode hpod hrsync
    rw [remoteBuild_kaniko_reduction module' cfg workingCopyId syncPod env hdf hmode hpod hrsync]
    simp
  · intro cfg reg remoteId env podName hreg hpod
    simp [buildStatusClusterDocker, hreg, hpod]
    split <;> rfl
  · intro cfg reg remoteId env hreg
    simp [buildStatusKaniko, hreg]
    split <;> rfl

/-- Witness for C7: at a concrete module with a 1200-second build timeout,
the kaniko pod run is bounded by 1200 while the skopeo probe pod run is
bounded by the fixed 60. -/
theorem remoteTimeoutPolicy_witness :
    RemoteOp.podRun "kaniko" 1200 ∈
      (remoteBuild sampleModule ⟨.kaniko, some sampleRegistry, none, false⟩ "w"
        sampleBuildEnv).2 ∧
    (buildStatusKaniko ⟨.kaniko, some sampleRegistry, none, false⟩ "img:v1"
        sampleStatusEnv).2 = [RemoteOp.podRun "skopeo" 60] :=
  ⟨remoteTimeoutPolicy.2.1 sampleModule ⟨.kaniko, some sampleRegistry, none, false⟩ "w"
    "garden-build-sync-abc12" sampleBuildEnv rfl rfl rfl rfl,
   remoteTimeoutPolicy.2.2.2 ⟨.kaniko, some sampleRegistry, none, false⟩ sampleRegistry
    "img:v1" sampleStatusEnv rfl⟩

/-- C3 (amended): in every remote build mode (cluster-docker or kaniko),
when the provider configuration has no deployment registry, `getBuildStatus`
raises `InternalError` before attempting any remote call (empty remote
trace); `build` performs no such registry check — it proceeds with the
remote build steps (see the counterexample). -/
theorem missingRegistryStatusInternalError (module' : ContainerModule)
    (cfg : KubernetesConfig) (remoteId : String) (env : StatusEnv)
    (hdf : module'.hasDockerfile = true)
    (hreg : cfg.deploymentRegistry = none)
    (hmode : cfg.buildMode = .clusterDocker ∨ cfg.buildMode = .kaniko) :
    k8sGetContainerBuildStatus module' cfg remoteId env =
      (.error (.internalError "Expected configured deploymentRegistry for remote build"), []) := by
  rcases hmode with h | h <;>
    simp [k8sGetContainerBuildStatus, hdf, h, buildStatusClusterDocker, buildStatusKaniko, hreg]

/-- Witness for C3 (amended) at a concrete remote-mode configuration with
no deployment registry. -/
theorem missingRegistryStatusInternalError_witness :
    sampleModule.hasDockerfile = true ∧
    (⟨.kaniko, none, none, false⟩ : KubernetesConfig).deploymentRegistry = none ∧
    k8sGetContainerBuildStatus sampleModule ⟨.kaniko, none, none, false⟩ "img:v1"
        sampleStatusEnv =
      (.error (.internalError "Expected configured deploymentRegistry for remote build"), []) :=
  ⟨rfl, rfl,
    missingRegistryStatusInternalError sampleModule ⟨.kaniko, none, none, false⟩ "img:v1"
      sampleStatusEnv rfl rfl (Or.inr rfl)⟩

/-- Counterexample to C3 as stated: with cluster-docker mode and no
deployment registry configured, `build` (`remoteBuild`) does not raise
`InternalError` — it completes successfully, and its trace starts with the
port forward for the context sync, so remote calls are attempted. -/
theorem missingRegistryBuildNoInternalError :
    (remoteBuild sampleModule ⟨.clusterDocker, none, none, false⟩ "w" sampleBuildEnv).1 =
      .ok { buildLog := some (("bout" ++ "berr") ++ ("pout" ++ "perr")),
            fetched := some false, fresh := some true, version := some "v-0123456789" } ∧
    RemoteOp.portForward ("Deployment/" ++ buildSyncDeploymentName) RSYNC_PORT ∈
      (remoteBuild sampleModule ⟨.clusterDocker, none, none, false⟩ "w" sampleBuildEnv).2 :=
  ⟨rfl, by decide⟩

/-- Protocol invariant for the kaniko pod: the executor action is only ever
pending once the `socatStarted` marker exists; the kill action is only ever
pending once the `done` marker exists; the support container never holds an
executor action and the kaniko container never holds the kill action; and
each container's remaining stages are a suffix of its script. -/
def SyncInv (s : SyncState) : Prop :=
  (SyncAction.runExecutor ∈ s.kanikoPending → "socatStarted" ∈ s.files) ∧
  (SyncAction.kill "socat" ∈ s.supportPending → "done" ∈ s.files) ∧
  (SyncAction.runExecutor ∉ s.supportPending) ∧
  (SyncAction.kill "socat" ∉ s.kanikoPending) ∧
  (s.kanikoStages = kanikoScript ∨ s.kanikoStages = []) ∧
  (s.supportStages = supportScript ∨ s.supportStages = supportScript.tail ∨
    s.supportStages = [])

theorem SyncInv_init : SyncInv initialSyncState := by
  simp [SyncInv, initialSyncState]

theorem SyncInv_step (s : SyncState) (c : SyncChoice) (h : SyncInv s) :
    SyncInv (syncStep s c).1 := by
  obtain ⟨h1, h2, h3, h4, h5, h6⟩ := h
  cases c with
  | socatStarts =>
    by_cases hs : s.socatRunning <;> simp only [syncStep, hs, if_true, if_false] <;>
      exact ⟨h1, h2, h3, h4, h5, h6⟩
  | kanikoStep =>
    cases hkp : s.kanikoPending with
    | cons a rest =>
      have h1' : SyncAction.runExecutor ∈ rest → "socatStarted" ∈ s.files := fun hm =>
        h1 (by rw [hkp]; exact List.mem_cons_of_mem a hm)
      have h4' : SyncAction.kill "socat" ∉ rest := fun hm =>
        h4 (by rw [hkp]; exact List.mem_cons_of_mem a hm)
      cases a with
      | runExecutor =>
        simp only [syncStep, containerStep, hkp]
        exact ⟨h1', h2, h3, h4', h5, h6⟩
      | touch marker =>
        simp only [syncStep, containerStep, hkp]
        exact ⟨fun hm => List.mem_cons_of_mem _ (h1' hm),
          fun hm => List.mem_cons_of_mem _ (h2 hm), h3, h4', h5, h6⟩
      | kill proc =>
        simp only [syncStep, containerStep, hkp]
        exact ⟨h1', h2, h3, h4', h5, h6⟩
      | exitContainer =>
        simp only [syncStep, containerStep, hkp]
        exact ⟨h1', h2, h3, h4', h5, h6⟩
    | nil =>
      rcases h5 with h5 | h5
      · by_cases hev : evalCond s (SyncCond.fileExists "socatStarted") = true
        · have hmem : "socatStarted" ∈ s.files := by
            simpa [evalCond] using hev
          simp only [syncStep, containerStep, hkp, h5, kanikoScript, hev, if_true]
          exact ⟨fun _ => hmem, h2, h3, by simp, Or.inr rfl, h6⟩
        · simp only [Bool.not_eq_true] at hev
          simp only [syncStep, containerStep, hkp, h5, kanikoScript, hev, Bool.false_eq_true,
            if_false]
          exact ⟨by simp, h2, h3, by simp, Or.inl rfl, h6⟩
      · simp only [syncStep, containerStep, hkp, h5]
        exact ⟨by simp, h2, h3, by simp, Or.inr rfl, h6⟩
  | supportStep =>
    cases hsp : s.supportPending with
    | cons a rest =>
      have h2' : SyncAction.kill "socat" ∈ rest → "done" ∈ s.files := fun hm =>
        h2 (by rw [hsp]; exact List.mem_cons_of_mem a hm)
      have h3' : SyncAction.runExecutor ∉ rest := fun hm =>
        h3 (by rw [hsp]; exact List.mem_cons_of_mem a hm)
      cases a with
      | runExecutor =>
        simp only [syncStep, containerStep, hsp]
        exact ⟨h1, h2', h3', h4, h5, h6⟩
      | touch marker =>
        simp only [syncStep, containerStep, hsp]
        exact ⟨fun hm => List.mem_cons_of_mem _ (h1 hm),
          fun hm => List.mem_cons_of_mem _ (h2' hm), h3', h4, h5, h6⟩
      | kill proc =>
        simp only [syncStep, containerStep, hsp]
        exact ⟨h1, h2', h3', h4, h5, h6⟩
      | exitContainer =>
        simp only [syncStep, containerStep, hsp]
        exact ⟨h1, h2', h3', h4, h5, h6⟩
    | nil =>
      rcases h6 with h6 | h6 | h6
      · by_cases hev : evalCond s (SyncCond.procRunning "socat") = true
        · simp only [syncStep, containerStep, hsp, h6, supportScript, hev, if_true]
          exact ⟨h1, by simp, by simp, h4, h5, Or.inr (Or.inl rfl)⟩
        · simp only [Bool.not_eq_true] at hev
          simp only [syncStep, containerStep, hsp, h6, supportScript, hev, Bool.false_eq_true,
            if_false]
          exact ⟨h1, by simp, by simp, h4, h5, Or.inl rfl⟩
      · by_cases hev : evalCond s (SyncCond.fileExists "done") = true
        · have hmem : "done" ∈ s.files := by
            simpa [evalCond] using hev
          simp only [syncStep, containerStep, hsp, h6, supportScript, List.tail_cons, hev,
            if_true]
          exact ⟨h1, fun _ => hmem, by simp, h4, h5, Or.inr (Or.inr rfl)⟩
        · simp only [Bool.not_eq_true] at hev
          simp only [syncStep, containerStep, hsp, h6, supportScript, List.tail_cons, hev,
            Bool.false_eq_true, if_false]
          refine ⟨h1, by simp, by simp, h4, h5, Or.inr (Or.inl ?_)⟩
          simp [supportScript]
      · simp only [syncStep, containerStep, hsp, h6]
        exact ⟨h1, by simp, by simp, h4, h5, Or.inr (Or.inr rfl)⟩

theorem SyncInv_exec (choices : List SyncChoice) : SyncInv (syncExec choices) := by
  have haux : ∀ (cs : List SyncChoice) (s : SyncState), SyncInv s →
      SyncInv (cs.foldl (fun s c => (syncStep s c).1) s) := by
    intro cs
    induction cs with
    | nil => intro s hs; exact hs
    | cons c cs ih => intro s hs; exact ih _ (SyncInv_step s c hs)
  exact haux choices initialSyncState SyncInv_init

theorem syncStep_events (s : SyncState) (c : SyncChoice) (h : SyncInv s) :
    (SyncEvent.executorStart ∈ (syncStep s c).2 → "socatStarted" ∈ s.files) ∧
    (SyncEvent.killProc "socat" ∈ (syncStep s c).2 → "done" ∈ s.files) ∧
    (∀ container ms, SyncEvent.sleepPoll container ms ∈ (syncStep s c).2 → ms = 300) := by
  obtain ⟨h1, h2, h3, h4, h5, h6⟩ := h
  cases c with
  | socatStarts =>
    by_cases hs : s.socatRunning <;> simp [syncStep, hs]
  | kanikoStep =>
    cases hkp : s.kanikoPending with
    | cons a rest =>
      cases a with
      | runExecutor =>
        refine ⟨fun _ => h1 (by rw [hkp]; exact List.mem_cons_self _ _), ?_, ?_⟩ <;>
          simp [syncStep, containerStep, hkp]
      | touch marker => refine ⟨?_, ?_, ?_⟩ <;> simp [syncStep, containerStep, hkp]
      | kill proc =>
        refine ⟨?_, ?_, ?_⟩
        · simp [syncStep, containerStep, hkp]
        · intro hmem
          simp only [syncStep, containerStep, hkp, List.mem_singleton] at hmem
          injection hmem with hproc
          subst hproc
          exact absurd (by rw [hkp]; exact List.mem_cons_self _ _) h4
        · simp [syncStep, containerStep, hkp]
      | exitContainer => refine ⟨?_, ?_, ?_⟩ <;> simp [syncStep, containerStep, hkp]
    | nil =>
      cases hks : s.kanikoStages with
      | nil => refine ⟨?_, ?_, ?_⟩ <;> simp [syncStep, containerStep, hkp, hks]
      | cons st rests =>
        by_cases hev : evalCond s st.cond = true <;>
          [simp only [Bool.not_eq_true] at hev; simp only [Bool.not_eq_true] at hev] <;>
          refine ⟨?_, ?_, ?_⟩ <;>
          simp [syncStep, containerStep, hkp, hks, hev]
  | supportStep =>
    cases hsp : s.supportPending with
    | cons a rest =>
      cases a with
      | runExecutor =>
        exact absurd (by rw [hsp]; exact List.mem_cons_self _ _) h3
      | touch marker => refine ⟨?_, ?_, ?_⟩ <;> simp [syncStep, containerStep, hsp]
      | kill proc =>
        refine ⟨?_, ?_, ?_⟩
        · simp [syncStep, containerStep, hsp]
        · intro hmem
          simp only [syncStep, containerStep, hsp, List.mem_singleton] at hmem
          injection hmem with hproc
          subst hproc
          exact h2 (by rw [hsp]; exact List.mem_cons_self _ _)
        · simp [syncStep, containerStep, hsp]
      | exitContainer => refine ⟨?_, ?_, ?_⟩ <;> simp [syncStep, containerStep, hsp]
    | nil =>
      cases hss : s.supportStages with
      | nil => refine ⟨?_, ?_, ?_⟩ <;> simp [syncStep, containerStep, hsp, hss]
      | cons st rests =>
        by_cases hev : evalCond s st.cond = true <;>
          [simp only [Bool.not_eq_true] at hev; simp only [Bool.not_eq_true] at hev] <;>
          refine ⟨?_, ?_, ?_⟩ <;>
          simp [syncStep, containerStep, hsp, hss, hev]

/-- C8: in every reachable state of the kaniko pod's sidecar
synchronization protocol, the builder's main command (the kaniko executor)
never starts before the `socatStarted` marker exists in the shared comms
volume, the support container never kills the socat proxy before the `done`
marker exists, and every waiting-stage poll sleeps the fixed 300
milliseconds. -/
theorem sidecarSyncOrdering (choices : List SyncChoice) (c : SyncChoice) :
    (SyncEvent.executorStart ∈ (syncStep (syncExec choices) c).2 →
      "socatStarted" ∈ (syncExec choices).files) ∧
    (SyncEvent.killProc "socat" ∈ (syncStep (syncExec choices) c).2 →
      "done" ∈ (syncExec choices).files) ∧
    (∀ container ms, SyncEvent.sleepPoll container ms ∈ (syncStep (syncExec choices) c).2 →
      ms = 300) :=
  syncStep_events (syncExec choices) c (SyncInv_exec choices)

/-- Witness for C8: a concrete schedule under which the executor actually
starts, with the `socatStarted` marker present at that point. -/
theorem sidecarSyncOrdering_witness :
    SyncEvent.executorStart ∈
      (syncStep (syncExec [.socatStarts, .supportStep, .supportStep, .kanikoStep])
        .kanikoStep).2 ∧
    "socatStarted" ∈ (syncExec [.socatStarts, .supportStep, .supportStep, .kanikoStep]).files :=
  ⟨by decide,
    (sidecarSyncOrdering [.socatStarts, .supportStep, .supportStep, .kanikoStep]
      .kanikoStep).1 (by decide)⟩

end GardenBuild
